import Mathlib

/-!
Verification development for the sunlight_sensor_gcp telemetry pipeline.

Part 1 models the Cassandra "latest reading" cache upserter
(`update_latest_reading` in `functions/pubsub_to_cassandra/src/main.py`,
duplicated verbatim in `functions/sensor_data_processor/src/main.py`).
Part 2 models the incremental BigQuery-to-Firestore export engine
(`export_sensors_to_firestore` in `functions/bq_to_firestore_sensors/src/main.py`).
Part 3 models the downsampling / bounded-LOCF gap-filling query; its SQL
template (`terraform/queries/downsample_sunlight.sql.tpl`) is not part of the
sources available here (only its test driver is), so that part is modelled
from the specification text.

Instants (Python `datetime` values and ISO-8601 timestamp strings) are
modelled as seconds since the Unix epoch (`Nat`); the epoch string
`1970-01-01T00:00:00Z` is `0`.  Numeric field values are modelled as `ℚ`.
-/

namespace Sunlight

/-- A value bound to a CQL placeholder: a string, a number, or a timestamp. -/
inductive CqlValue where
  | vStr (s : String)
  | vNum (q : ℚ)
  | vTime (t : Nat)
deriving DecidableEq, Repr

/-- The columns of the `sensor_latest_reading` table that
`update_latest_reading` can name in a SET clause. -/
inductive Col where
  | last_seen
  | timestamp
  | sensor_set_id
  | light_intensity
  | light_intensity_timestamp
  | status
  | status_timestamp
  | battery_voltage
  | battery_voltage_timestamp
  | battery_percent
  | battery_percent_timestamp
  | wifi_dbm
  | wifi_dbm_timestamp
  | chip_temp_c
  | chip_temp_c_timestamp
  | chip_temp_f
  | chip_temp_f_timestamp
  | commit_sha
  | commit_sha_timestamp
  | commit_timestamp
  | commit_timestamp_timestamp
deriving DecidableEq, Repr

/-- The column name as it appears in the generated CQL text. -/
def colName : Col → String
  | .last_seen => "last_seen"
  | .timestamp => "timestamp"
  | .sensor_set_id => "sensor_set_id"
  | .light_intensity => "light_intensity"
  | .light_intensity_timestamp => "light_intensity_timestamp"
  | .status => "status"
  | .status_timestamp => "status_timestamp"
  | .battery_voltage => "battery_voltage"
  | .battery_voltage_timestamp => "battery_voltage_timestamp"
  | .battery_percent => "battery_percent"
  | .battery_percent_timestamp => "battery_percent_timestamp"
  | .wifi_dbm => "wifi_dbm"
  | .wifi_dbm_timestamp => "wifi_dbm_timestamp"
  | .chip_temp_c => "chip_temp_c"
  | .chip_temp_c_timestamp => "chip_temp_c_timestamp"
  | .chip_temp_f => "chip_temp_f"
  | .chip_temp_f_timestamp => "chip_temp_f_timestamp"
  | .commit_sha => "commit_sha"
  | .commit_sha_timestamp => "commit_sha_timestamp"
  | .commit_timestamp => "commit_timestamp"
  | .commit_timestamp_timestamp => "commit_timestamp_timestamp"

/-- An incoming reading as seen by `update_latest_reading`.  The Python code
reads each key with `reading.get(...)` or `'k' in reading and reading['k'] is
not None`, so a key that is absent and a key bound to `None` behave
identically; both are modelled as `none`. -/
structure Reading where
  sensor_id : Option String := none
  sensor_set_id : Option String := none
  light_intensity : Option CqlValue := none
  status : Option CqlValue := none
  battery_voltage : Option CqlValue := none
  battery_percent : Option CqlValue := none
  wifi_dbm : Option CqlValue := none
  chip_temp_c : Option CqlValue := none
  chip_temp_f : Option CqlValue := none
  commit_sha : Option CqlValue := none
  commit_timestamp : Option CqlValue := none
deriving DecidableEq, Repr

/-- Python truthiness of an optional string (`if not sensor_id: ...`):
`None` and the empty string are falsy. -/
def pyTruthy : Option String → Bool
  | none => false
  | some s => s != ""

/-- The pair of SET-clause entries contributed by one optional domain field:
`if 'f' in reading and reading['f'] is not None:` appends `f = ?` and
`f_timestamp = ?` together with the value and the event timestamp. -/
def segField (f fts : Col) (o : Option CqlValue) (t : Nat) : List (Col × CqlValue) :=
  match o with
  | some v => [(f, v), (fts, CqlValue.vTime t)]
  | none => []

/-- The SET-clause entry contributed by `sensor_set_id`
(`if sensor_set_id:` — Python truthiness, so the empty string is skipped). -/
def segSetId (o : Option String) : List (Col × CqlValue) :=
  match o with
  | some s => if s != "" then [(Col.sensor_set_id, CqlValue.vStr s)] else []
  | none => []

/-- The ordered list of `(column, bound value)` pairs built by
`update_latest_reading`: the always-set pair `last_seen`/`timestamp` first,
then `sensor_set_id` when truthy, then each optional field in source order. -/
def buildPairs (r : Reading) (t it : Nat) : List (Col × CqlValue) :=
  [(Col.last_seen, CqlValue.vTime it), (Col.timestamp, CqlValue.vTime t)]
    ++ segSetId r.sensor_set_id
    ++ segField Col.light_intensity Col.light_intensity_timestamp r.light_intensity t
    ++ segField Col.status Col.status_timestamp r.status t
    ++ segField Col.battery_voltage Col.battery_voltage_timestamp r.battery_voltage t
    ++ segField Col.battery_percent Col.battery_percent_timestamp r.battery_percent t
    ++ segField Col.wifi_dbm Col.wifi_dbm_timestamp r.wifi_dbm t
    ++ segField Col.chip_temp_c Col.chip_temp_c_timestamp r.chip_temp_c t
    ++ segField Col.chip_temp_f Col.chip_temp_f_timestamp r.chip_temp_f t
    ++ segField Col.commit_sha Col.commit_sha_timestamp r.commit_sha t
    ++ segField Col.commit_timestamp Col.commit_timestamp_timestamp r.commit_timestamp t

/-- One SET clause of the generated CQL text. -/
def setClause (c : Col) : String := colName c ++ " = ?"

/-- Separator-joined concatenation, as `', '.join(set_clauses)` does. -/
def joinSep (sep : String) : List String → String
  | [] => ""
  | [s] => s
  | s :: t :: rest => s ++ sep ++ joinSep sep (t :: rest)

/-- The textual SET clauses, in the order the code appends them. -/
def setClauses (r : Reading) (t it : Nat) : List String :=
  (buildPairs r t it).map (fun p => setClause p.1)

/-- The full dynamically-built UPDATE statement text. -/
def updateQuery (kspace : String) (r : Reading) (t it : Nat) : String :=
  "\n        UPDATE " ++ kspace ++ ".sensor_latest_reading\n        SET "
    ++ joinSep ", " (setClauses r t it)
    ++ "\n        WHERE sensor_id = ?\n    "

/-- The tuple of bound values: one per SET clause, in order, then
`sensor_id` for the WHERE clause. -/
def valuesList (r : Reading) (t it : Nat) : List CqlValue :=
  (buildPairs r t it).map Prod.snd ++ [CqlValue.vStr (r.sensor_id.getD "")]

/-- Number of `?` placeholders in a piece of CQL text. -/
def countQmarks (s : String) : Nat := s.toList.count '?'

/-- The cached `sensor_latest_reading` row for one sensor: each column either
holds a value or is unset. -/
def CacheRow : Type := Col → Option CqlValue

/-- The cache row with every column unset. -/
def emptyRow : CacheRow := fun _ => none

/-- Cassandra UPDATE semantics: each `(column, value)` pair in the SET list
assigns that column, later assignments overriding earlier ones; columns not
named in any SET clause keep their previous contents. -/
def applyPairs (row : CacheRow) (ps : List (Col × CqlValue)) : CacheRow :=
  ps.foldl (fun acc p => fun c => if c = p.1 then some p.2 else acc c) row

/-- What one call of `update_latest_reading` did.  `raised` models an
exception propagating out of the function to its caller; the translated
function never produces it, because the missing-key path is a bare `return`
and the `except Exception` block prints diagnostics and falls through. -/
inductive UpdateOutcome where
  | skippedMissingKey
  | executed
  | loggedError
  | raised (msg : String)
deriving DecidableEq, Repr

/-- Whether an outcome is an exception reaching the caller. -/
def UpdateOutcome.isError : UpdateOutcome → Bool
  | .raised _ => true
  | _ => false

/-- Shallow embedding of `update_latest_reading(session, reading, timestamp,
ingestion_time)`.  `execOk` stands for whether `session.prepare` /
`session.execute` succeed; on failure the code logs and returns normally.
Returns the outcome together with the resulting cache row for
`reading.sensor_id`. -/
def update_latest_reading (execOk : Bool) (r : Reading) (t it : Nat)
    (row : CacheRow) : UpdateOutcome × CacheRow :=
  if pyTruthy r.sensor_id then
    if execOk then (.executed, applyPairs row (buildPairs r t it))
    else (.loggedError, row)
  else (.skippedMissingKey, row)

/-- Which columns may legitimately be named by the statement built from `r`:
the two always-set columns, `sensor_set_id` when truthy, and each optional
field (with its per-field timestamp column) when present and non-null. -/
def mentions (r : Reading) : Col → Bool
  | .last_seen => true
  | .timestamp => true
  | .sensor_set_id => pyTruthy r.sensor_set_id
  | .light_intensity => r.light_intensity.isSome
  | .light_intensity_timestamp => r.light_intensity.isSome
  | .status => r.status.isSome
  | .status_timestamp => r.status.isSome
  | .battery_voltage => r.battery_voltage.isSome
  | .battery_voltage_timestamp => r.battery_voltage.isSome
  | .battery_percent => r.battery_percent.isSome
  | .battery_percent_timestamp => r.battery_percent.isSome
  | .wifi_dbm => r.wifi_dbm.isSome
  | .wifi_dbm_timestamp => r.wifi_dbm.isSome
  | .chip_temp_c => r.chip_temp_c.isSome
  | .chip_temp_c_timestamp => r.chip_temp_c.isSome
  | .chip_temp_f => r.chip_temp_f.isSome
  | .chip_temp_f_timestamp => r.chip_temp_f.isSome
  | .commit_sha => r.commit_sha.isSome
  | .commit_sha_timestamp => r.commit_sha.isSome
  | .commit_timestamp => r.commit_timestamp.isSome
  | .commit_timestamp_timestamp => r.commit_timestamp.isSome

/-! Part 2: the incremental BigQuery-to-Firestore export engine
(`export_sensors_to_firestore`). -/

/-- A row of the `downsampled_sunlight_data` source table as the export query
sees it. -/
structure SourceRow where
  observation_minute : Nat
  sensor_id : String
  sensor_set_id : String
  smoothed_light_intensity : ℚ
  last_updated : Nat
deriving DecidableEq, Repr

/-- An aggregated row returned by the export query: one per
`(15-minute bucket, sensor_id, sensor_set_id)` group. -/
structure AggRow where
  observation_minute : Nat
  sensor_id : String
  sensor_set_id : String
  smoothed_light_intensity : ℚ
  max_last_updated : Nat
deriving DecidableEq, Repr

/-- `TIMESTAMP_SECONDS(900 * DIV(UNIX_SECONDS(observation_minute), 900))`. -/
def bucket15 (t : Nat) : Nat := 900 * (t / 900)

/-- The GROUP BY key of the export query. -/
def rowKey (r : SourceRow) : Nat × String × String :=
  (bucket15 r.observation_minute, r.sensor_id, r.sensor_set_id)

/-- First occurrences of each distinct element, in order of appearance
(the distinct grouping keys of a SQL GROUP BY). -/
def distinctKeys {α : Type} [DecidableEq α] (l : List α) : List α :=
  l.foldl (fun acc k => if k ∈ acc then acc else acc ++ [k]) []

/-- The aggregated output row for one grouping key:
`AVG(smoothed_light_intensity)` and `MAX(last_updated)` over the group. -/
def groupKeyRow (rows : List SourceRow) (k : Nat × String × String) : AggRow :=
  let ms := rows.filter (fun r => rowKey r == k)
  { observation_minute := k.1
    sensor_id := k.2.1
    sensor_set_id := k.2.2
    smoothed_light_intensity :=
      (ms.map SourceRow.smoothed_light_intensity).sum / (ms.length : ℚ)
    max_last_updated := (ms.map SourceRow.last_updated).foldl max 0 }

/-- GROUP BY over a list of source rows. -/
def groupRows (rows : List SourceRow) : List AggRow :=
  (distinctKeys (rows.map rowKey)).map (groupKeyRow rows)

/-- `WHERE last_updated > TIMESTAMP(watermark)`. -/
def filteredRows (table : List SourceRow) (wm : Nat) : List SourceRow :=
  table.filter (fun r => decide (wm < r.last_updated))

/-- The ordering of `ORDER BY max_last_updated`. -/
def aggLE (a b : AggRow) : Prop := a.max_last_updated ≤ b.max_last_updated

instance : DecidableRel aggLE := fun x y => Nat.decLe x.max_last_updated y.max_last_updated

instance : IsTotal AggRow aggLE := ⟨fun x y => Nat.le_total x.max_last_updated y.max_last_updated⟩

instance : IsTrans AggRow aggLE := ⟨fun _ _ _ => Nat.le_trans⟩

/-- The rows returned by the export query for a given watermark: filter by
`last_updated`, group and aggregate, `ORDER BY max_last_updated`, `LIMIT 500`. -/
def queryNewRows (table : List SourceRow) (wm : Nat) : List AggRow :=
  (List.insertionSort aggLE (groupRows (filteredRows table wm))).take 500

/-- Reading the watermark document: `none` models an absent document,
`some none` a document lacking the `last_processed_timestamp_utc` key; both
default to the epoch (`1970-01-01T00:00:00Z`, modelled as `0`). -/
def readWatermark : Option (Option Nat) → Nat
  | none => 0
  | some none => 0
  | some (some w) => w

/-- Python 3 `round` on a rational: round half to even. -/
def pyRound (q : ℚ) : ℤ :=
  let f := ⌊q⌋
  if q - f < 1/2 then f
  else if (1 : ℚ)/2 < q - f then f + 1
  else if f % 2 = 0 then f else f + 1

/-- The document written to the `sunlight_readings` collection for one
aggregated row. -/
structure FsDoc where
  sensor_id : String
  observation_minute : Nat
  smoothed_light_intensity : ℤ
  sensor_set_id : String
deriving DecidableEq, Repr

/-- Document id: `f"{row.sensor_id}_{row.observation_minute.isoformat()}"`. -/
def docIdOf (r : AggRow) : String := r.sensor_id ++ "_" ++ toString r.observation_minute

/-- The keyed document queued by `batch.set` for one aggregated row; the
stored intensity is `round(row.smoothed_light_intensity)`. -/
def mkDoc (r : AggRow) : String × FsDoc :=
  (docIdOf r,
   { sensor_id := r.sensor_id
     observation_minute := r.observation_minute
     smoothed_light_intensity := pyRound r.smoothed_light_intensity
     sensor_set_id := r.sensor_set_id })

/-- All documents queued in the batch, in row order. -/
def batchDocs (rows : List AggRow) : List (String × FsDoc) := rows.map mkDoc

/-- Firestore state touched by the export run: the watermark document of
`bq_export_metadata/last_run` and the `sunlight_readings` collection. -/
structure FsState where
  meta : Option (Option Nat)
  readings : List (String × FsDoc)
deriving DecidableEq, Repr

/-- `doc_ref.set` semantics inside a batch: overwrite the document with this
id, or create it. -/
def upsertDoc (docs : List (String × FsDoc)) (d : String × FsDoc) :
    List (String × FsDoc) :=
  if docs.any (fun p => p.1 == d.1) then
    docs.map (fun p => if p.1 == d.1 then d else p)
  else docs ++ [d]

/-- The running maximum the export loop keeps in
`max_new_last_updated_ts` (`None` initially, replaced whenever the current
row's value is strictly greater). -/
def runningMax : Option Nat → List Nat → Option Nat
  | acc, [] => acc
  | none, x :: xs => runningMax (some x) xs
  | some m, x :: xs => runningMax (some (if m < x then x else m)) xs

/-- Shallow embedding of `export_sensors_to_firestore`.  `commitOk` stands
for whether `batch.commit()` succeeds; the code has no handler around it, so
a failure propagates (modelled as `Except.error`) before the watermark
document is touched.  The informational `rows_processed_in_last_run`
counter is not modelled. -/
def export_sensors_to_firestore (commitOk : Bool) (table : List SourceRow)
    (st : FsState) : Except String FsState :=
  let wm := readWatermark st.meta
  let rows := queryNewRows table wm
  if rows.isEmpty then Except.ok st
  else
    let docs := batchDocs rows
    let mx := runningMax none (rows.map AggRow.max_last_updated)
    if commitOk then
      match mx with
      | some m =>
          Except.ok { meta := some (some m), readings := docs.foldl upsertDoc st.readings }
      | none =>
          Except.ok { meta := st.meta, readings := docs.foldl upsertDoc st.readings }
    else Except.error "batch commit failed"

/-- The maximum `max_last_updated` among a batch of aggregated rows. -/
def newWatermark (rows : List AggRow) : Nat :=
  (rows.map AggRow.max_last_updated).foldl max 0

/-! Part 3: the downsampling query.  The MERGE SQL template
`terraform/queries/downsample_sunlight.sql.tpl` is exercised by
`terraform/test/test_smoothing_query.py` but the template itself is not among
the available sources, so the aggregation and bounded-LOCF gap-filling pass
are modelled from the specification (§4.2 AGGREGATE and Gap-filling). -/

/-- A raw reading as seen by the downsampling query. -/
structure RawPoint where
  sensor_id : String
  ts : Nat
  light_intensity : ℚ
deriving DecidableEq, Repr

/-- A downsampled output row. -/
structure DsRow where
  sensor_id : String
  observation_minute : Nat
  smoothed_light_intensity : ℚ
deriving DecidableEq, Repr

/-- Start of the width-aligned bucket containing `t`. -/
def bucketOf (width t : Nat) : Nat := width * (t / width)

/-- Modelled from the spec: §4.2 AGGREGATE — group the selected raw rows by
`(floor(timestamp to bucket width), sensor_id)`; within each group the value
is the arithmetic mean; groups with zero contributing rows never appear. -/
def aggBuckets (width : Nat) (raws : List RawPoint) : List DsRow :=
  (distinctKeys (raws.map (fun p => (p.sensor_id, bucketOf width p.ts)))).map
    (fun k =>
      let ms := raws.filter (fun p => (p.sensor_id, bucketOf width p.ts) == k)
      { sensor_id := k.1
        observation_minute := k.2
        smoothed_light_intensity :=
          (ms.map RawPoint.light_intensity).sum / (ms.length : ℚ) })

/-- The buckets in which sensor `s` has at least one raw reading. -/
def sensorBuckets (width : Nat) (raws : List RawPoint) (s : String) : List Nat :=
  (raws.filter (fun p => p.sensor_id == s)).map (fun p => bucketOf width p.ts)

/-- The sensor's last observed bucket (its "retired" boundary). -/
def lastBucket (width : Nat) (raws : List RawPoint) (s : String) : Nat :=
  (sensorBuckets width raws s).foldl max 0

/-- The sensor's first observed bucket. -/
def firstBucket (width : Nat) (raws : List RawPoint) (s : String) : Nat :=
  match sensorBuckets width raws s with
  | [] => 0
  | b :: bs => bs.foldl min b

/-- Whether sensor `s` has at least one raw reading in bucket `b`. -/
def isPresent (width : Nat) (raws : List RawPoint) (s : String) (b : Nat) : Bool :=
  raws.any (fun p => p.sensor_id == s && bucketOf width p.ts == b)

/-- Arithmetic mean of sensor `s`'s raw values in bucket `b`. -/
def bucketMean (width : Nat) (raws : List RawPoint) (s : String) (b : Nat) : ℚ :=
  let ms := raws.filter (fun p => p.sensor_id == s && bucketOf width p.ts == b)
  (ms.map RawPoint.light_intensity).sum / (ms.length : ℚ)

/-- The most recent bucket at or before `b` in which sensor `s` has real
data (the bucket a LOCF fill carries forward from). -/
def latestPresent (width : Nat) (raws : List RawPoint) (s : String) (b : Nat) : Nat :=
  ((sensorBuckets width raws s).filter (fun x => decide (x ≤ b))).foldl max 0

/-- Modelled from the spec: §4.2 Gap-filling — with gap-filling enabled, every
bucket between a sensor's first and last observed bucket gets a row; a bucket
with real data keeps its real mean, a bucket without carries forward the most
recent prior value; no row is emitted past the sensor's last observed bucket. -/
def gapFill (width : Nat) (raws : List RawPoint) : List DsRow :=
  (distinctKeys (raws.map RawPoint.sensor_id)).flatMap
    (fun s =>
      let fb := firstBucket width raws s
      let lb := lastBucket width raws s
      (List.range ((lb - fb) / width + 1)).map (fun i =>
        { sensor_id := s
          observation_minute := fb + width * i
          smoothed_light_intensity :=
            bucketMean width raws s (latestPresent width raws s (fb + width * i)) }))

/-- Modelled from the spec: the downsampling pass with gap-filling treated as
a configuration flag (§9 open question). -/
def downsample (width : Nat) (fill : Bool) (raws : List RawPoint) : List DsRow :=
  if fill then gapFill width raws else aggBuckets width raws

/-- The value the downsampled output holds for sensor `s` at bucket `b`, when
a row for that key exists. -/
def dsValue (out : List DsRow) (s : String) (b : Nat) : Option ℚ :=
  ((out.filter (fun r => r.sensor_id == s && r.observation_minute == b)).map
    DsRow.smoothed_light_intensity).head?

/-! Helper lemmas about the cache upserter. -/

/-- The last value assigned to column `c` by a SET list, if any. -/
def assignOf : List (Col × CqlValue) → Col → Option CqlValue
  | [], _ => none
  | p :: ps, c =>
    match assignOf ps c with
    | some v => some v
    | none => if c = p.1 then some p.2 else none

lemma applyPairs_apply (row : CacheRow) (ps : List (Col × CqlValue)) (c : Col) :
    applyPairs row ps c =
      match assignOf ps c with
      | some v => some v
      | none => row c := by
  induction ps generalizing row with
  | nil => rfl
  | cons p ps ih =>
    show applyPairs (fun c2 => if c2 = p.1 then some p.2 else row c2) ps c = _
    rw [ih]
    simp only [assignOf]
    cases h : assignOf ps c with
    | some v => rfl
    | none =>
      by_cases hc : c = p.1
      · simp [hc]
      · simp [hc]

lemma assignOf_append (l₁ l₂ : List (Col × CqlValue)) (c : Col) :
    assignOf (l₁ ++ l₂) c =
      match assignOf l₂ c with
      | some v => some v
      | none => assignOf l₁ c := by
  induction l₁ with
  | nil =>
    simp only [List.nil_append, assignOf]
    cases assignOf l₂ c <;> rfl
  | cons p l ih =>
    simp only [List.cons_append, assignOf, List.append_eq]
    rw [ih]
    cases assignOf l₂ c <;> cases assignOf l c <;> rfl

lemma assignOf_segField_ne (f fts : Col) (o : Option CqlValue) (t : Nat) (c : Col)
    (hf : c ≠ f) (hft : c ≠ fts) : assignOf (segField f fts o t) c = none := by
  cases o <;> simp [segField, assignOf, hf, hft]

lemma assignOf_segField_fst (f fts : Col) (v : CqlValue) (t : Nat) (hne : f ≠ fts) :
    assignOf (segField f fts (some v) t) f = some v := by
  simp [segField, assignOf, hne]

lemma assignOf_segField_snd (f fts : Col) (v : CqlValue) (t : Nat) :
    assignOf (segField f fts (some v) t) fts = some (CqlValue.vTime t) := by
  simp [segField, assignOf]

lemma assignOf_segSetId_ne (o : Option String) (c : Col)
    (h : c ≠ Col.sensor_set_id) : assignOf (segSetId o) c = none := by
  cases o with
  | none => rfl
  | some s =>
    by_cases hs : s != ""
    · simp [segSetId, hs, assignOf, h]
    · simp [segSetId, hs, assignOf]

lemma assignOf_segSetId_self (s : String) (h : s ≠ "") :
    assignOf (segSetId (some s)) Col.sensor_set_id = some (CqlValue.vStr s) := by
  simp [segSetId, assignOf, h]

lemma mem_fst_segField (f fts : Col) (o : Option CqlValue) (t : Nat) (c : Col) :
    c ∈ (segField f fts o t).map Prod.fst ↔ o.isSome = true ∧ (c = f ∨ c = fts) := by
  cases o <;> simp [segField]

lemma mem_fst_segSetId (o : Option String) (c : Col) :
    c ∈ (segSetId o).map Prod.fst ↔ pyTruthy o = true ∧ c = Col.sensor_set_id := by
  cases o with
  | none => simp [segSetId, pyTruthy]
  | some s =>
    by_cases hs : s != "" <;> simp [segSetId, pyTruthy, hs]

lemma assignOf_segField_absent (f fts : Col) (t : Nat) (c : Col) :
    assignOf (segField f fts none t) c = none := rfl

lemma mem_fst_buildPairs (r : Reading) (t it : Nat) (c : Col)
    (hc : c ∈ (buildPairs r t it).map Prod.fst) : mentions r c = true := by
  simp only [buildPairs, List.map_append, List.mem_append, List.map_cons, List.map_nil,
    List.mem_cons, List.not_mem_nil, or_false, mem_fst_segField, mem_fst_segSetId,
    or_assoc] at hc
  rcases hc with rfl | rfl | ⟨h1, rfl⟩ | ⟨h1, rfl | rfl⟩ | ⟨h1, rfl | rfl⟩ |
    ⟨h1, rfl | rfl⟩ | ⟨h1, rfl | rfl⟩ | ⟨h1, rfl | rfl⟩ | ⟨h1, rfl | rfl⟩ |
    ⟨h1, rfl | rfl⟩ | ⟨h1, rfl | rfl⟩ | ⟨h1, rfl | rfl⟩ <;>
    simp_all [mentions]

/-- Claim C1: cache merge preserves untouched fields.  For every cached row
and every update built from a reading, each tracked field that is absent (or
null) in the reading keeps both its value and its per-field timestamp, and
the built UPDATE statement names only columns of present, non-null fields
plus the always-set columns. -/
theorem cache_merge_preserves_untouched_fields (r : Reading) (t it : Nat)
    (row : CacheRow) (_hs : pyTruthy r.sensor_id = true) :
    (r.light_intensity = none →
      applyPairs row (buildPairs r t it) Col.light_intensity = row Col.light_intensity ∧
      applyPairs row (buildPairs r t it) Col.light_intensity_timestamp =
        row Col.light_intensity_timestamp)
  ∧ (r.status = none →
      applyPairs row (buildPairs r t it) Col.status = row Col.status ∧
      applyPairs row (buildPairs r t it) Col.status_timestamp = row Col.status_timestamp)
  ∧ (r.battery_voltage = none →
      applyPairs row (buildPairs r t it) Col.battery_voltage = row Col.battery_voltage ∧
      applyPairs row (buildPairs r t it) Col.battery_voltage_timestamp =
        row Col.battery_voltage_timestamp)
  ∧ (r.battery_percent = none →
      applyPairs row (buildPairs r t it) Col.battery_percent = row Col.battery_percent ∧
      applyPairs row (buildPairs r t it) Col.battery_percent_timestamp =
        row Col.battery_percent_timestamp)
  ∧ (r.wifi_dbm = none →
      applyPairs row (buildPairs r t it) Col.wifi_dbm = row Col.wifi_dbm ∧
      applyPairs row (buildPairs r t it) Col.wifi_dbm_timestamp = row Col.wifi_dbm_timestamp)
  ∧ (r.chip_temp_c = none →
      applyPairs row (buildPairs r t it) Col.chip_temp_c = row Col.chip_temp_c ∧
      applyPairs row (buildPairs r t it) Col.chip_temp_c_timestamp =
        row Col.chip_temp_c_timestamp)
  ∧ (r.chip_temp_f = none →
      applyPairs row (buildPairs r t it) Col.chip_temp_f = row Col.chip_temp_f ∧
      applyPairs row (buildPairs r t it) Col.chip_temp_f_timestamp =
        row Col.chip_temp_f_timestamp)
  ∧ (r.commit_sha = none →
      applyPairs row (buildPairs r t it) Col.commit_sha = row Col.commit_sha ∧
      applyPairs row (buildPairs r t it) Col.commit_sha_timestamp =
        row Col.commit_sha_timestamp)
  ∧ (r.commit_timestamp = none →
      applyPairs row (buildPairs r t it) Col.commit_timestamp = row Col.commit_timestamp ∧
      applyPairs row (buildPairs r t it) Col.commit_timestamp_timestamp =
        row Col.commit_timestamp_timestamp)
  ∧ (∀ c ∈ (buildPairs r t it).map Prod.fst, mentions r c = true) := by
  refine ⟨?_, ?_, ?_, ?_, ?_, ?_, ?_, ?_, ?_, mem_fst_buildPairs r t it⟩ <;>
    (intro h; constructor <;>
      (rw [applyPairs_apply];
       simp [buildPairs, h, assignOf_append, assignOf_segField_ne,
         assignOf_segField_absent, assignOf_segSetId_ne, assignOf]))

/-- Reading fixture: only `sensor_id` and `light_intensity` supplied. -/
def rSparse : Reading :=
  { sensor_id := some "s1", light_intensity := some (CqlValue.vNum 5) }

/-- Cache-row fixture: `status` was previously set at its own timestamp. -/
def rowWithStatus : CacheRow := fun c =>
  if c = Col.status then some (CqlValue.vNum 7)
  else if c = Col.status_timestamp then some (CqlValue.vTime 2)
  else none

/-- Witness for C1 at a concrete sparse update: a reading carrying only
`light_intensity` leaves the cached `status` value and its timestamp
untouched, and every SET clause names a permitted column. -/
theorem cache_merge_preserves_untouched_fields_witness :
    pyTruthy rSparse.sensor_id = true
  ∧ (applyPairs rowWithStatus (buildPairs rSparse 5 6) Col.status =
        rowWithStatus Col.status
     ∧ applyPairs rowWithStatus (buildPairs rSparse 5 6) Col.status_timestamp =
        rowWithStatus Col.status_timestamp)
  ∧ (∀ c ∈ (buildPairs rSparse 5 6).map Prod.fst, mentions rSparse c = true) :=
  ⟨by decide,
   (cache_merge_preserves_untouched_fields rSparse 5 6 rowWithStatus (by decide)).2.1 rfl,
   (cache_merge_preserves_untouched_fields rSparse 5 6 rowWithStatus (by decide)).2.2.2.2.2.2.2.2.2⟩

/-- Claim C6 (amended): cache upsert postcondition.  For every reading with a
truthy `sensor_id`, the executed update sets each present, non-null field and
its per-field timestamp, always sets `last_seen` to the ingestion time and
`timestamp` to the event timestamp, and sets `sensor_set_id` whenever it is
supplied with a truthy (non-null, non-empty) value. -/
theorem cache_upsert_postcondition (r : Reading) (t it : Nat) (row : CacheRow)
    (hs : pyTruthy r.sensor_id = true) :
    update_latest_reading true r t it row =
      (UpdateOutcome.executed, applyPairs row (buildPairs r t it))
  ∧ applyPairs row (buildPairs r t it) Col.last_seen = some (CqlValue.vTime it)
  ∧ applyPairs row (buildPairs r t it) Col.timestamp = some (CqlValue.vTime t)
  ∧ (∀ s, r.sensor_set_id = some s → s ≠ "" →
      applyPairs row (buildPairs r t it) Col.sensor_set_id = some (CqlValue.vStr s))
  ∧ (∀ v, r.light_intensity = some v →
      applyPairs row (buildPairs r t it) Col.light_intensity = some v ∧
      applyPairs row (buildPairs r t it) Col.light_intensity_timestamp =
        some (CqlValue.vTime t))
  ∧ (∀ v, r.status = some v →
      applyPairs row (buildPairs r t it) Col.status = some v ∧
      applyPairs row (buildPairs r t it) Col.status_timestamp = some (CqlValue.vTime t))
  ∧ (∀ v, r.battery_voltage = some v →
      applyPairs row (buildPairs r t it) Col.battery_voltage = some v ∧
      applyPairs row (buildPairs r t it) Col.battery_voltage_timestamp =
        some (CqlValue.vTime t))
  ∧ (∀ v, r.battery_percent = some v →
      applyPairs row (buildPairs r t it) Col.battery_percent = some v ∧
      applyPairs row (buildPairs r t it) Col.battery_percent_timestamp =
        some (CqlValue.vTime t))
  ∧ (∀ v, r.wifi_dbm = some v →
      applyPairs row (buildPairs r t it) Col.wifi_dbm = some v ∧
      applyPairs row (buildPairs r t it) Col.wifi_dbm_timestamp = some (CqlValue.vTime t))
  ∧ (∀ v, r.chip_temp_c = some v →
      applyPairs row (buildPairs r t it) Col.chip_temp_c = some v ∧
      applyPairs row (buildPairs r t it) Col.chip_temp_c_timestamp =
        some (CqlValue.vTime t))
  ∧ (∀ v, r.chip_temp_f = some v →
      applyPairs row (buildPairs r t it) Col.chip_temp_f = some v ∧
      applyPairs row (buildPairs r t it) Col.chip_temp_f_timestamp =
        some (CqlValue.vTime t))
  ∧ (∀ v, r.commit_sha = some v →
      applyPairs row (buildPairs r t it) Col.commit_sha = some v ∧
      applyPairs row (buildPairs r t it) Col.commit_sha_timestamp =
        some (CqlValue.vTime t))
  ∧ (∀ v, r.commit_timestamp = some v →
      applyPairs row (buildPairs r t it) Col.commit_timestamp = some v ∧
      applyPairs row (buildPairs r t it) Col.commit_timestamp_timestamp =
        some (CqlValue.vTime t)) := by
  refine ⟨by simp [update_latest_reading, hs], ?_, ?_, ?_, ?_, ?_, ?_, ?_, ?_, ?_, ?_, ?_, ?_⟩
  · rw [applyPairs_apply]
    simp [buildPairs, assignOf_append, assignOf_segField_ne, assignOf_segSetId_ne, assignOf]
  · rw [applyPairs_apply]
    simp [buildPairs, assignOf_append, assignOf_segField_ne, assignOf_segSetId_ne, assignOf]
  · intro s hset hne
    rw [applyPairs_apply]
    simp [buildPairs, hset, assignOf_append, assignOf_segField_ne,
      assignOf_segSetId_self s hne, assignOf]
  all_goals
    (intro v hv; constructor <;>
      (rw [applyPairs_apply];
       simp [buildPairs, hv, assignOf_append, assignOf_segField_ne,
         assignOf_segField_fst, assignOf_segField_snd, assignOf_segSetId_ne, assignOf]))

/-- Reading fixture exercising several optional fields at once. -/
def rMulti : Reading :=
  { sensor_id := some "s1", sensor_set_id := some "set-1",
    light_intensity := some (CqlValue.vNum 5),
    battery_percent := some (CqlValue.vNum 80) }

/-- Witness for C6 at a concrete multi-field reading applied to an empty
cache row. -/
theorem cache_upsert_postcondition_witness :
    pyTruthy rMulti.sensor_id = true
  ∧ applyPairs emptyRow (buildPairs rMulti 7 8) Col.last_seen =
      some (CqlValue.vTime 8)
  ∧ applyPairs emptyRow (buildPairs rMulti 7 8) Col.timestamp =
      some (CqlValue.vTime 7)
  ∧ applyPairs emptyRow (buildPairs rMulti 7 8) Col.sensor_set_id =
      some (CqlValue.vStr "set-1")
  ∧ (applyPairs emptyRow (buildPairs rMulti 7 8) Col.light_intensity =
       some (CqlValue.vNum 5)
     ∧ applyPairs emptyRow (buildPairs rMulti 7 8) Col.light_intensity_timestamp =
       some (CqlValue.vTime 7)) := by
  have h := cache_upsert_postcondition rMulti 7 8 emptyRow (by decide)
  exact ⟨by decide, h.2.1, h.2.2.1, h.2.2.2.1 "set-1" rfl (by decide),
    h.2.2.2.2.1 (CqlValue.vNum 5) rfl⟩

/-- Reading fixture for the C6 counterexample: `sensor_set_id` is supplied
but empty. -/
def rEmptySetId : Reading := { sensor_id := some "x", sensor_set_id := some "" }

/-- Counterexample to C6 as stated: a reading that supplies
`sensor_set_id = ""` does not get a `sensor_set_id` SET clause (Python
truthiness skips it), and the applied update leaves the column unset. -/
theorem cache_upsert_empty_sensor_set_id_not_set :
    pyTruthy rEmptySetId.sensor_id = true
  ∧ rEmptySetId.sensor_set_id = some ""
  ∧ Col.sensor_set_id ∉ (buildPairs rEmptySetId 5 6).map Prod.fst
  ∧ applyPairs emptyRow (buildPairs rEmptySetId 5 6) Col.sensor_set_id = none := by
  refine ⟨by decide, rfl, by decide, by decide⟩

/-- Reading fixture with no `sensor_id` at all. -/
def rNoId : Reading := { light_intensity := some (CqlValue.vNum 3) }

/-- Counterexample to C7 as stated: on a reading without `sensor_id` the
function returns normally (a bare `return`); no `MissingKeyError` or any
other exception reaches the caller, and nothing is logged. -/
theorem missing_key_does_not_raise :
    (update_latest_reading true rNoId 5 6 emptyRow).1 = UpdateOutcome.skippedMissingKey
  ∧ (update_latest_reading true rNoId 5 6 emptyRow).1.isError = false
  ∧ (∀ c, (update_latest_reading true rNoId 5 6 emptyRow).2 c = emptyRow c) :=
  ⟨by decide, by decide, fun _ => rfl⟩

/-- Claim C7 (amended): a reading whose `sensor_id` is absent (or empty) is a
silent no-op — the function returns early, issues no update statement, leaves
the cache row unchanged, and raises no error. -/
theorem missing_key_silent_noop (execOk : Bool) (r : Reading) (t it : Nat)
    (row : CacheRow) (h : pyTruthy r.sensor_id = false) :
    update_latest_reading execOk r t it row = (UpdateOutcome.skippedMissingKey, row)
  ∧ UpdateOutcome.skippedMissingKey.isError = false := by
  refine ⟨by simp [update_latest_reading, h], rfl⟩

/-- Witness for C7 at a concrete reading with no `sensor_id`. -/
theorem missing_key_silent_noop_witness :
    pyTruthy rNoId.sensor_id = false
  ∧ (update_latest_reading false rNoId 5 6 emptyRow =
        (UpdateOutcome.skippedMissingKey, emptyRow)
     ∧ UpdateOutcome.skippedMissingKey.isError = false) :=
  ⟨by decide, missing_key_silent_noop false rNoId 5 6 emptyRow (by decide)⟩

/-- Reading fixture for the execution-failure path. -/
def rExecFail : Reading :=
  { sensor_id := some "sensor-1", light_intensity := some (CqlValue.vNum 42) }

/-- Claim C8 evaluated at the failing input: when `session.execute` raises,
`update_latest_reading` catches the exception, prints diagnostics and returns
normally — the error is swallowed, it does not propagate to the caller, so
the claimed fail-loudly behaviour does not hold in the code. -/
theorem exec_error_swallowed :
    update_latest_reading false rExecFail 5 6 emptyRow =
      (UpdateOutcome.loggedError, emptyRow)
  ∧ (update_latest_reading false rExecFail 5 6 emptyRow).1.isError = false :=
  ⟨rfl, by decide⟩

/-! Placeholder counting for C9. -/

lemma countQmarks_append (s t : String) :
    countQmarks (s ++ t) = countQmarks s + countQmarks t := by
  have h : (s ++ t).data = s.data ++ t.data := rfl
  simp only [countQmarks, String.toList, h, List.count_append]

lemma countQmarks_setClause (c : Col) : countQmarks (setClause c) = 1 := by
  cases c <;> decide

lemma countQmarks_joinSep (l : List String) (h : ∀ s ∈ l, countQmarks s = 1) :
    countQmarks (joinSep ", " l) = l.length := by
  induction l with
  | nil => decide
  | cons s rest ih =>
    cases rest with
    | nil => simpa [joinSep] using h s (by simp)
    | cons t r2 =>
      have h1 : countQmarks s = 1 := h s (by simp)
      have h2 : countQmarks (joinSep ", " (t :: r2)) = (t :: r2).length :=
        ih (fun x hx => h x (by simp [hx]))
      have hsep : countQmarks ", " = 0 := by decide
      show countQmarks (s ++ ", " ++ joinSep ", " (t :: r2)) = (s :: t :: r2).length
      rw [countQmarks_append, countQmarks_append, h1, h2, hsep]
      simp [List.length_cons]
      omega

/-- Claim C9: the dynamically built UPDATE statement always has exactly as
many `?` placeholders as there are entries in the bound-values tuple (one per
SET clause plus the WHERE `sensor_id` pair), for any keyspace name that
itself contains no `?`. -/
theorem placeholder_count_matches_value_count (kspace : String) (r : Reading)
    (t it : Nat) (hk : countQmarks kspace = 0)
    (_hs : pyTruthy r.sensor_id = true) :
    countQmarks (updateQuery kspace r t it) = (valuesList r t it).length := by
  have hclauses : ∀ s ∈ setClauses r t it, countQmarks s = 1 := by
    intro s hsx
    obtain ⟨p, _hp, rfl⟩ := List.mem_map.1 hsx
    exact countQmarks_setClause p.1
  have hjoin := countQmarks_joinSep _ hclauses
  unfold updateQuery
  rw [countQmarks_append, countQmarks_append, countQmarks_append, countQmarks_append,
    hjoin, hk]
  have h1 : countQmarks "\n        UPDATE " = 0 := by decide
  have h2 : countQmarks ".sensor_latest_reading\n        SET " = 0 := by decide
  have h3 : countQmarks "\n        WHERE sensor_id = ?\n    " = 1 := by decide
  rw [h1, h2, h3]
  simp [valuesList, setClauses]

/-- Witness for C9 at a concrete reading and the default keyspace. -/
theorem placeholder_count_matches_value_count_witness :
    countQmarks "sunlight_data" = 0
  ∧ pyTruthy rMulti.sensor_id = true
  ∧ countQmarks (updateQuery "sunlight_data" rMulti 7 8) =
      (valuesList rMulti 7 8).length :=
  ⟨by decide, by decide,
   placeholder_count_matches_value_count "sunlight_data" rMulti 7 8 (by decide) (by decide)⟩

/-! Helper lemmas about the export engine. -/

lemma mem_distinctKeys_aux {α : Type} [DecidableEq α] (l : List α) :
    ∀ (acc : List α) (k : α),
      (k ∈ l.foldl (fun acc2 x => if x ∈ acc2 then acc2 else acc2 ++ [x]) acc ↔
        k ∈ acc ∨ k ∈ l) := by
  induction l with
  | nil => intro acc k; simp
  | cons a l ih =>
    intro acc k
    simp only [List.foldl_cons, ih, List.mem_cons]
    by_cases ha : a ∈ acc
    · simp only [if_pos ha]
      constructor
      · tauto
      · rintro (h | rfl | h)
        · tauto
        · exact Or.inl ha
        · tauto
    · simp only [if_neg ha, List.mem_append, List.mem_singleton]
      tauto

lemma mem_distinctKeys {α : Type} [DecidableEq α] (l : List α) (k : α) :
    k ∈ distinctKeys l ↔ k ∈ l := by
  unfold distinctKeys
  rw [mem_distinctKeys_aux]
  simp

lemma le_foldl_max (l : List Nat) : ∀ a : Nat, a ≤ l.foldl max a := by
  induction l with
  | nil => intro a; exact Nat.le_refl a
  | cons x l ih => intro a; exact Nat.le_trans (Nat.le_max_left a x) (ih (max a x))

lemma mem_le_foldl_max (l : List Nat) : ∀ (a x : Nat), x ∈ l → x ≤ l.foldl max a := by
  induction l with
  | nil => intro a x hx; cases hx
  | cons y l ih =>
    intro a x hx
    rcases List.mem_cons.1 hx with rfl | h
    · exact Nat.le_trans (Nat.le_max_right a x) (le_foldl_max l (max a x))
    · exact ih (max a y) x h

lemma foldl_max_mem (l : List Nat) : ∀ a : Nat, l.foldl max a = a ∨ l.foldl max a ∈ l := by
  induction l with
  | nil => intro a; exact Or.inl rfl
  | cons x l ih =>
    intro a
    rcases ih (max a x) with h | h
    · rcases max_choice a x with h2 | h2
      · exact Or.inl (by rw [List.foldl_cons, h, h2])
      · exact Or.inr (by rw [List.foldl_cons, h, h2]; exact List.mem_cons_self x l)
    · exact Or.inr (List.mem_cons_of_mem x h)

lemma foldl_max_le (l : List Nat) :
    ∀ (a N : Nat), a ≤ N → (∀ x ∈ l, x ≤ N) → l.foldl max a ≤ N := by
  induction l with
  | nil => intro a N ha _; exact ha
  | cons x l ih =>
    intro a N ha h
    exact ih (max a x) N (Nat.max_le.2 ⟨ha, h x (List.mem_cons_self x l)⟩)
      (fun y hy => h y (List.mem_cons_of_mem x hy))

lemma runningMax_some (l : List Nat) : ∀ m : Nat,
    runningMax (some m) l = some (l.foldl max m) := by
  induction l with
  | nil => intro m; rfl
  | cons x l ih =>
    intro m
    have hmax : (if m < x then x else m) = max m x := by
      rcases Nat.lt_or_ge m x with h | h
      · simp [h, Nat.max_eq_right (Nat.le_of_lt h)]
      · simp [Nat.not_lt.2 h, Nat.max_eq_left h]
    show runningMax (some (if m < x then x else m)) l = some (List.foldl max (max m x) l)
    rw [hmax, ih (max m x)]

lemma runningMax_none (l : List Nat) (h : l ≠ []) :
    runningMax none l = some (l.foldl max 0) := by
  cases l with
  | nil => exact absurd rfl h
  | cons x l =>
    show runningMax (some x) l = some (List.foldl max (max 0 x) l)
    rw [runningMax_some l x, Nat.zero_max]

lemma queryNewRows_gt (table : List SourceRow) (wm : Nat) :
    ∀ a ∈ queryNewRows table wm, wm < a.max_last_updated := by
  intro a ha
  have h1 : a ∈ List.insertionSort aggLE (groupRows (filteredRows table wm)) :=
    List.take_subset 500 _ ha
  have h2 : a ∈ groupRows (filteredRows table wm) :=
    (List.perm_insertionSort aggLE _).subset h1
  obtain ⟨k, hk, rfl⟩ := List.mem_map.1 h2
  have hk2 : k ∈ (filteredRows table wm).map rowKey := (mem_distinctKeys _ _).1 hk
  obtain ⟨r0, hr0, hkey⟩ := List.mem_map.1 hk2
  have hr0w : wm < r0.last_updated := by
    have hmf := List.mem_filter.1 hr0
    simpa using hmf.2
  have hr0m : r0 ∈ (filteredRows table wm).filter (fun r => rowKey r == k) :=
    List.mem_filter.2 ⟨hr0, by simp [hkey]⟩
  have hle : r0.last_updated ≤ (groupKeyRow (filteredRows table wm) k).max_last_updated := by
    apply mem_le_foldl_max
    exact List.mem_map_of_mem _ hr0m
  omega

lemma export_nodata_eq (commitOk : Bool) (table : List SourceRow) (st : FsState)
    (h : queryNewRows table (readWatermark st.meta) = []) :
    export_sensors_to_firestore commitOk table st = Except.ok st := by
  simp [export_sensors_to_firestore, h]

lemma export_commitfail_eq (table : List SourceRow) (st : FsState)
    (h : queryNewRows table (readWatermark st.meta) ≠ []) :
    export_sensors_to_firestore false table st = Except.error "batch commit failed" := by
  have hne : (queryNewRows table (readWatermark st.meta)).isEmpty = false := by
    cases hq : queryNewRows table (readWatermark st.meta) with
    | nil => exact absurd hq h
    | cons a l => rfl
  simp [export_sensors_to_firestore, hne]

lemma export_commit_eq (table : List SourceRow) (st : FsState)
    (h : queryNewRows table (readWatermark st.meta) ≠ []) :
    export_sensors_to_firestore true table st =
      Except.ok
        { meta := some (some (newWatermark (queryNewRows table (readWatermark st.meta))))
          readings := (batchDocs (queryNewRows table (readWatermark st.meta))).foldl
            upsertDoc st.readings } := by
  have hne : (queryNewRows table (readWatermark st.meta)).isEmpty = false := by
    cases hq : queryNewRows table (readWatermark st.meta) with
    | nil => exact absurd hq h
    | cons a l => rfl
  have hmap : (queryNewRows table (readWatermark st.meta)).map AggRow.max_last_updated ≠ [] := by
    simp [List.map_eq_nil_iff, h]
  have hrun := runningMax_none _ hmap
  simp only [export_sensors_to_firestore, hne, Bool.false_eq_true, if_false, if_true, hrun]
  rfl

lemma newWatermark_ge (rows : List AggRow) :
    ∀ a ∈ rows, a.max_last_updated ≤ newWatermark rows :=
  fun _ ha => mem_le_foldl_max _ 0 _ (List.mem_map_of_mem _ ha)

lemma newWatermark_mem (rows : List AggRow) (h : rows ≠ []) :
    newWatermark rows ∈ rows.map AggRow.max_last_updated := by
  rcases foldl_max_mem (rows.map AggRow.max_last_updated) 0 with h0 | hm
  · cases rows with
    | nil => exact absurd rfl h
    | cons a l =>
      have hle : a.max_last_updated ≤ newWatermark (a :: l) :=
        newWatermark_ge _ a (List.mem_cons_self a l)
      have hz : a.max_last_updated = 0 := by
        unfold newWatermark at hle
        omega
      show newWatermark (a :: l) ∈ (a :: l).map AggRow.max_last_updated
      unfold newWatermark
      rw [h0]
      exact List.mem_map.2 ⟨a, List.mem_cons_self a l, hz⟩
  · exact hm

/-- Claim C2: the watermark advance is all-or-nothing and monotone.  A run
with no new rows leaves the state unchanged; a failed batch commit aborts the
run before the watermark document is written; a successful commit writes the
batch and then sets the watermark to the maximum `max_last_updated` among the
processed rows, which every processed row strictly exceeds the old watermark
for, so the new watermark is at least the old one. -/
theorem watermark_advance_all_or_nothing (commitOk : Bool) (table : List SourceRow)
    (st : FsState) :
    (queryNewRows table (readWatermark st.meta) = [] →
        export_sensors_to_firestore commitOk table st = Except.ok st)
  ∧ (queryNewRows table (readWatermark st.meta) ≠ [] → commitOk = false →
        export_sensors_to_firestore commitOk table st =
          Except.error "batch commit failed")
  ∧ (queryNewRows table (readWatermark st.meta) ≠ [] → commitOk = true →
        export_sensors_to_firestore commitOk table st =
          Except.ok
            { meta := some (some (newWatermark (queryNewRows table (readWatermark st.meta))))
              readings := (batchDocs (queryNewRows table (readWatermark st.meta))).foldl
                upsertDoc st.readings }
      ∧ (∀ a ∈ queryNewRows table (readWatermark st.meta),
           readWatermark st.meta < a.max_last_updated
           ∧ a.max_last_updated ≤ newWatermark (queryNewRows table (readWatermark st.meta)))
      ∧ newWatermark (queryNewRows table (readWatermark st.meta)) ∈
          (queryNewRows table (readWatermark st.meta)).map AggRow.max_last_updated
      ∧ readWatermark st.meta ≤
          newWatermark (queryNewRows table (readWatermark st.meta))) := by
  refine ⟨export_nodata_eq commitOk table st, ?_, ?_⟩
  · intro h hc
    subst hc
    exact export_commitfail_eq table st h
  · intro h hc
    subst hc
    obtain ⟨a0, ha0⟩ := List.exists_mem_of_ne_nil _ h
    refine ⟨export_commit_eq table st h,
      fun a ha => ⟨queryNewRows_gt table _ a ha, newWatermark_ge _ a ha⟩,
      newWatermark_mem _ h, ?_⟩
    exact Nat.le_of_lt
      (Nat.lt_of_lt_of_le (queryNewRows_gt table _ a0 ha0) (newWatermark_ge _ a0 ha0))

/-- Source-table fixture for the export engine: two rows in different
15-minute buckets, both newer than the epoch watermark. -/
def exportTable : List SourceRow :=
  [⟨100, "A", "set-1", 10, 50⟩, ⟨1000, "A", "set-1", 20, 60⟩]

/-- Initial Firestore state: no watermark document, no readings. -/
def exportState : FsState := ⟨none, []⟩

/-- Witness for C2 at a concrete run that finds two new rows and commits. -/
theorem watermark_advance_all_or_nothing_witness :
    queryNewRows exportTable (readWatermark exportState.meta) ≠ []
  ∧ (export_sensors_to_firestore true exportTable exportState =
      Except.ok
        { meta := some (some (newWatermark
            (queryNewRows exportTable (readWatermark exportState.meta))))
          readings := (batchDocs (queryNewRows exportTable (readWatermark exportState.meta))).foldl
            upsertDoc exportState.readings }
     ∧ (∀ a ∈ queryNewRows exportTable (readWatermark exportState.meta),
          readWatermark exportState.meta < a.max_last_updated
          ∧ a.max_last_updated ≤
              newWatermark (queryNewRows exportTable (readWatermark exportState.meta)))
     ∧ newWatermark (queryNewRows exportTable (readWatermark exportState.meta)) ∈
         (queryNewRows exportTable (readWatermark exportState.meta)).map AggRow.max_last_updated
     ∧ readWatermark exportState.meta ≤
         newWatermark (queryNewRows exportTable (readWatermark exportState.meta))) :=
  ⟨by decide,
   (watermark_advance_all_or_nothing true exportTable exportState).2.2 (by decide) rfl⟩

/-- Claim C3: watermark read and query window.  The stored watermark defaults
to the epoch when the document is absent or lacks the key; the query keeps
exactly the source rows whose `last_updated` is strictly greater than the
watermark; the result is capped at 500 rows, sorted ascending by
`max_last_updated`, and every returned aggregate strictly exceeds the
watermark. -/
theorem watermark_read_and_query_window (table : List SourceRow) (wm : Nat) :
    readWatermark none = 0
  ∧ readWatermark (some none) = 0
  ∧ (∀ r : SourceRow, r ∈ filteredRows table wm ↔ r ∈ table ∧ wm < r.last_updated)
  ∧ (queryNewRows table wm).length ≤ 500
  ∧ List.Sorted aggLE (queryNewRows table wm)
  ∧ (∀ a ∈ queryNewRows table wm, wm < a.max_last_updated) := by
  refine ⟨rfl, rfl, ?_, ?_, ?_, queryNewRows_gt table wm⟩
  · intro r
    simp [filteredRows, List.mem_filter]
  · exact List.length_take_le 500 _
  · exact List.Pairwise.sublist (List.take_sublist 500 _)
      (List.sorted_insertionSort aggLE _)

/-- Witness for C3 at a concrete table and the epoch watermark. -/
theorem watermark_read_and_query_window_witness :
    (∀ r : SourceRow, r ∈ filteredRows exportTable 0 ↔ r ∈ exportTable ∧ 0 < r.last_updated)
  ∧ (queryNewRows exportTable 0).length ≤ 500
  ∧ List.Sorted aggLE (queryNewRows exportTable 0)
  ∧ (∀ a ∈ queryNewRows exportTable 0, 0 < a.max_last_updated) :=
  ⟨(watermark_read_and_query_window exportTable 0).2.2.1,
   (watermark_read_and_query_window exportTable 0).2.2.2.1,
   (watermark_read_and_query_window exportTable 0).2.2.2.2.1,
   (watermark_read_and_query_window exportTable 0).2.2.2.2.2⟩

/-- Claim C10: every document written to `sunlight_readings` stores
`round(AVG(smoothed_light_intensity))` — the Python banker's rounding of the
exact average, an integer, generally different from the exact mean — while
the watermark is advanced using the exact `max_last_updated` values. -/
theorem export_rounds_average_keeps_exact_watermark (table : List SourceRow)
    (st : FsState) :
    (∀ a : AggRow, (mkDoc a).2.smoothed_light_intensity = pyRound a.smoothed_light_intensity)
  ∧ (queryNewRows table (readWatermark st.meta) ≠ [] →
      export_sensors_to_firestore true table st =
        Except.ok
          { meta := some (some (newWatermark (queryNewRows table (readWatermark st.meta))))
            readings := (batchDocs (queryNewRows table (readWatermark st.meta))).foldl
              upsertDoc st.readings })
  ∧ pyRound (221 / 2 : ℚ) = 110
  ∧ ((pyRound (221 / 2 : ℚ) : ℚ) ≠ (221 / 2 : ℚ)) := by
  have hfloor : ⌊(221 / 2 : ℚ)⌋ = 110 := by norm_num [Int.floor_eq_iff]
  have hpr : pyRound (221 / 2 : ℚ) = 110 := by
    rw [pyRound, hfloor]
    norm_num
  refine ⟨fun a => rfl, fun h => export_commit_eq table st h, hpr, ?_⟩
  rw [hpr]
  norm_num

/-- Source-table fixture for C10: two rows in the same bucket whose average
is the non-integral 21/2. -/
def roundTable : List SourceRow :=
  [⟨100, "A", "set-1", 10, 50⟩, ⟨200, "A", "set-1", 11, 60⟩]

/-- Witness for C10 at a concrete committed run with a non-integral
average. -/
theorem export_rounds_average_keeps_exact_watermark_witness :
    queryNewRows roundTable (readWatermark exportState.meta) ≠ []
  ∧ export_sensors_to_firestore true roundTable exportState =
      Except.ok
        { meta := some (some (newWatermark
            (queryNewRows roundTable (readWatermark exportState.meta))))
          readings := (batchDocs (queryNewRows roundTable (readWatermark exportState.meta))).foldl
            upsertDoc exportState.readings }
  ∧ pyRound (221 / 2 : ℚ) = 110 :=
  ⟨by decide,
   (export_rounds_average_keeps_exact_watermark roundTable exportState).2.1 (by decide),
   (export_rounds_average_keeps_exact_watermark roundTable exportState).2.2.1⟩

/-! Helper lemmas about the downsampling / gap-filling model. -/

lemma mem_sensorBuckets (width : Nat) (raws : List RawPoint) (s : String) (b : Nat) :
    b ∈ sensorBuckets width raws s ↔
      ∃ p ∈ raws, p.sensor_id = s ∧ bucketOf width p.ts = b := by
  simp only [sensorBuckets, List.mem_map, List.mem_filter, beq_iff_eq]
  constructor
  · rintro ⟨p, ⟨hp, hps⟩, hb⟩
    exact ⟨p, hp, hps, hb⟩
  · rintro ⟨p, hp, hps, hb⟩
    exact ⟨p, ⟨hp, hps⟩, hb⟩

lemma isPresent_iff (width : Nat) (raws : List RawPoint) (s : String) (b : Nat) :
    isPresent width raws s b = true ↔ b ∈ sensorBuckets width raws s := by
  rw [mem_sensorBuckets]
  simp only [isPresent, List.any_eq_true, Bool.and_eq_true, beq_iff_eq]

lemma sensorBuckets_dvd (width : Nat) (raws : List RawPoint) (s : String) :
    ∀ b ∈ sensorBuckets width raws s, width ∣ b := by
  intro b hb
  obtain ⟨p, _, hb2⟩ := List.mem_map.1 hb
  exact hb2 ▸ Dvd.intro _ rfl

lemma foldl_min_le (l : List Nat) : ∀ a : Nat, l.foldl min a ≤ a := by
  induction l with
  | nil => intro a; exact Nat.le_refl a
  | cons x l ih => intro a; exact Nat.le_trans (ih (min a x)) (Nat.min_le_left a x)

lemma foldl_min_le_mem (l : List Nat) : ∀ (a x : Nat), x ∈ l → l.foldl min a ≤ x := by
  induction l with
  | nil => intro a x hx; cases hx
  | cons y l ih =>
    intro a x hx
    rcases List.mem_cons.1 hx with rfl | h
    · exact Nat.le_trans (foldl_min_le l (min a x)) (Nat.min_le_right a x)
    · exact ih (min a y) x h

lemma foldl_min_mem (l : List Nat) : ∀ a : Nat, l.foldl min a = a ∨ l.foldl min a ∈ l := by
  induction l with
  | nil => intro a; exact Or.inl rfl
  | cons x l ih =>
    intro a
    rcases ih (min a x) with h | h
    · rcases min_choice a x with h2 | h2
      · exact Or.inl (by rw [List.foldl_cons, h, h2])
      · exact Or.inr (by rw [List.foldl_cons, h, h2]; exact List.mem_cons_self x l)
    · exact Or.inr (List.mem_cons_of_mem x h)

lemma firstBucket_mem (width : Nat) (raws : List RawPoint) (s : String)
    (h : sensorBuckets width raws s ≠ []) :
    firstBucket width raws s ∈ sensorBuckets width raws s := by
  unfold firstBucket
  cases hq : sensorBuckets width raws s with
  | nil => exact absurd hq h
  | cons b bs =>
    show List.foldl min b bs ∈ b :: bs
    rcases foldl_min_mem bs b with h2 | h2
    · rw [h2]; exact List.mem_cons_self b bs
    · exact List.mem_cons_of_mem b h2

lemma firstBucket_le (width : Nat) (raws : List RawPoint) (s : String) :
    ∀ b ∈ sensorBuckets width raws s, firstBucket width raws s ≤ b := by
  intro b hb
  unfold firstBucket
  cases hq : sensorBuckets width raws s with
  | nil => rw [hq] at hb; cases hb
  | cons c cs =>
    rw [hq] at hb
    show List.foldl min c cs ≤ b
    rcases List.mem_cons.1 hb with rfl | h
    · exact foldl_min_le cs b
    · exact foldl_min_le_mem cs c b h

lemma le_lastBucket (width : Nat) (raws : List RawPoint) (s : String) :
    ∀ b ∈ sensorBuckets width raws s, b ≤ lastBucket width raws s :=
  fun b hb => mem_le_foldl_max _ 0 b hb

lemma lastBucket_dvd (width : Nat) (raws : List RawPoint) (s : String) :
    width ∣ lastBucket width raws s := by
  unfold lastBucket
  rcases foldl_max_mem (sensorBuckets width raws s) 0 with h | h
  · rw [h]; exact Dvd.intro 0 rfl
  · exact sensorBuckets_dvd width raws s _ h

lemma foldl_max_eq_of (L : List Nat) (b : Nat) (hb : b ∈ L) (hub : ∀ x ∈ L, x ≤ b) :
    L.foldl max 0 = b :=
  Nat.le_antisymm (foldl_max_le L 0 b (Nat.zero_le b) hub) (mem_le_foldl_max L 0 b hb)

lemma latestPresent_self (width : Nat) (raws : List RawPoint) (s : String) (b : Nat)
    (hb : b ∈ sensorBuckets width raws s) :
    latestPresent width raws s b = b := by
  unfold latestPresent
  apply foldl_max_eq_of
  · exact List.mem_filter.2 ⟨hb, by simp⟩
  · intro x hx
    simpa using (List.mem_filter.1 hx).2

lemma latestPresent_next (width : Nat) (raws : List RawPoint) (s : String) (N : Nat)
    (hw : 0 < width) (hN : N ∈ sensorBuckets width raws s)
    (habs : N + width ∉ sensorBuckets width raws s) :
    latestPresent width raws s (N + width) = N := by
  unfold latestPresent
  apply foldl_max_eq_of
  · exact List.mem_filter.2 ⟨hN, by simp⟩
  · intro x hx
    obtain ⟨hxb, hxle⟩ := List.mem_filter.1 hx
    have hxle2 : x ≤ N + width := by simpa using hxle
    have hxne : x ≠ N + width := fun he => habs (he ▸ hxb)
    obtain ⟨cx, rfl⟩ := sensorBuckets_dvd width raws s x hxb
    obtain ⟨cN, hcN⟩ := sensorBuckets_dvd width raws s N hN
    have hlt : width * cx < width * (cN + 1) := by
      rw [Nat.mul_add, Nat.mul_one, ← hcN]
      omega
    have hcx : cx < cN + 1 := (Nat.mul_lt_mul_left hw).mp hlt
    rw [hcN]
    exact Nat.mul_le_mul_left width (by omega)

lemma grid_index_general (width fb lb b : Nat) (hw : 0 < width)
    (hfb : width ∣ fb) (hb : width ∣ b) (hlb : width ∣ lb)
    (h1 : fb ≤ b) (h2 : b ≤ lb) :
    ∃ i, i < (lb - fb) / width + 1 ∧ b = fb + width * i := by
  obtain ⟨cf, rfl⟩ := hfb
  obtain ⟨cb, rfl⟩ := hb
  obtain ⟨cl, rfl⟩ := hlb
  have hcfb : cf ≤ cb := Nat.le_of_mul_le_mul_left h1 hw
  have hcbl : cb ≤ cl := Nat.le_of_mul_le_mul_left h2 hw
  refine ⟨cb - cf, ?_, ?_⟩
  · rw [← Nat.mul_sub_left_distrib, Nat.mul_div_cancel_left _ hw]
    omega
  · rw [← Nat.mul_add]
    congr 1
    omega

lemma mem_gapFill_iff (width : Nat) (raws : List RawPoint) (row : DsRow) :
    row ∈ gapFill width raws ↔
      ∃ s, s ∈ distinctKeys (raws.map RawPoint.sensor_id) ∧
        ∃ i, i < (lastBucket width raws s - firstBucket width raws s) / width + 1 ∧
          row = ⟨s, firstBucket width raws s + width * i,
                 bucketMean width raws s
                   (latestPresent width raws s (firstBucket width raws s + width * i))⟩ := by
  simp only [gapFill, List.mem_flatMap, List.mem_map, List.mem_range]
  constructor
  · rintro ⟨s, hs, i, hi, rfl⟩
    exact ⟨s, hs, i, hi, rfl⟩
  · rintro ⟨s, hs, i, hi, rfl⟩
    exact ⟨s, hs, i, hi, rfl⟩

lemma mem_aggBuckets (width : Nat) (raws : List RawPoint) (row : DsRow)
    (h : row ∈ aggBuckets width raws) :
    ∃ p ∈ raws, p.sensor_id = row.sensor_id ∧
      bucketOf width p.ts = row.observation_minute := by
  obtain ⟨k, hk, rfl⟩ := List.mem_map.1 h
  obtain ⟨p, hp, hpk⟩ := List.mem_map.1 ((mem_distinctKeys _ _).1 hk)
  refine ⟨p, hp, ?_, ?_⟩
  · exact congrArg Prod.fst hpk
  · exact congrArg Prod.snd hpk

lemma sensor_mem_of_present (width : Nat) (raws : List RawPoint) (s : String) (N : Nat)
    (hN : N ∈ sensorBuckets width raws s) :
    s ∈ distinctKeys (raws.map RawPoint.sensor_id) := by
  obtain ⟨p, hp, hps, _⟩ := (mem_sensorBuckets width raws s N).1 hN
  exact (mem_distinctKeys _ _).2 (List.mem_map.2 ⟨p, hp, hps⟩)

lemma sensorBuckets_ne_nil_of_mem (width : Nat) (raws : List RawPoint) (s : String)
    (N : Nat) (hN : N ∈ sensorBuckets width raws s) :
    sensorBuckets width raws s ≠ [] := by
  intro h0
  rw [h0] at hN
  cases hN

/-- Claim C4: bounded LOCF gap policy.  With gap-filling disabled, a bucket
with zero contributing raw rows produces no output row.  With gap-filling
enabled, a bucket `N` with real data followed by an empty bucket `N + width`
that still lies at or before the sensor's last observed bucket gets the
carried-forward value of bucket `N` (and nothing else), and no output row for
a sensor ever lies past that sensor's last observed bucket. -/
theorem bounded_locf_gap_policy (width : Nat) (raws : List RawPoint) (s : String)
    (b N : Nat) (hw : 0 < width) :
    ((∀ p ∈ raws, ¬(p.sensor_id = s ∧ bucketOf width p.ts = b)) →
       ∀ row ∈ downsample width false raws,
         ¬(row.sensor_id = s ∧ row.observation_minute = b))
  ∧ (isPresent width raws s N = true →
     isPresent width raws s (N + width) = false →
     N + width ≤ lastBucket width raws s →
       ∃ v, (⟨s, N, v⟩ : DsRow) ∈ downsample width true raws
         ∧ (⟨s, N + width, v⟩ : DsRow) ∈ downsample width true raws
         ∧ v = bucketMean width raws s N
         ∧ (∀ w, (⟨s, N, w⟩ : DsRow) ∈ downsample width true raws → w = v)
         ∧ (∀ w, (⟨s, N + width, w⟩ : DsRow) ∈ downsample width true raws → w = v))
  ∧ (∀ row ∈ downsample width true raws,
       row.observation_minute ≤ lastBucket width raws row.sensor_id) := by
  refine ⟨?_, ?_, ?_⟩
  · intro hemp row hrow hcon
    obtain ⟨hsid, hobs⟩ := hcon
    obtain ⟨p, hp, hps, hpb⟩ := mem_aggBuckets width raws row hrow
    exact hemp p hp ⟨hps.trans hsid, by rw [hpb, hobs]⟩
  · intro hpres habs hle
    have hN : N ∈ sensorBuckets width raws s := (isPresent_iff width raws s N).1 hpres
    have hNabs : N + width ∉ sensorBuckets width raws s := by
      intro hmem
      have hx := (isPresent_iff width raws s (N + width)).2 hmem
      rw [habs] at hx
      cases hx
    have hsmem : s ∈ distinctKeys (raws.map RawPoint.sensor_id) :=
      sensor_mem_of_present width raws s N hN
    have hne := sensorBuckets_ne_nil_of_mem width raws s N hN
    have hfbm := firstBucket_mem width raws s hne
    obtain ⟨i1, hi1, hNi⟩ := grid_index_general width (firstBucket width raws s)
      (lastBucket width raws s) N hw
      (sensorBuckets_dvd width raws s _ hfbm) (sensorBuckets_dvd width raws s _ hN)
      (lastBucket_dvd width raws s) (firstBucket_le width raws s N hN)
      (Nat.le_trans (Nat.le_add_right N width) hle)
    obtain ⟨i2, hi2, hNi2⟩ := grid_index_general width (firstBucket width raws s)
      (lastBucket width raws s) (N + width) hw
      (sensorBuckets_dvd width raws s _ hfbm)
      (dvd_add (sensorBuckets_dvd width raws s _ hN) dvd_rfl)
      (lastBucket_dvd width raws s)
      (Nat.le_trans (firstBucket_le width raws s N hN) (Nat.le_add_right N width)) hle
    refine ⟨bucketMean width raws s N, ?_, ?_, rfl, ?_, ?_⟩
    · apply (mem_gapFill_iff width raws _).2
      refine ⟨s, hsmem, i1, hi1, ?_⟩
      rw [← hNi, latestPresent_self width raws s N hN]
    · apply (mem_gapFill_iff width raws _).2
      refine ⟨s, hsmem, i2, hi2, ?_⟩
      rw [← hNi2, latestPresent_next width raws s N hw hN hNabs]
    · intro w hwmem
      obtain ⟨s2, _, i3, _, heq⟩ := (mem_gapFill_iff width raws _).1 hwmem
      simp only [DsRow.mk.injEq] at heq
      obtain ⟨hss, hbb, hvv⟩ := heq
      subst hss
      rw [hvv, ← hbb, latestPresent_self width raws s N hN]
    · intro w hwmem
      obtain ⟨s2, _, i3, _, heq⟩ := (mem_gapFill_iff width raws _).1 hwmem
      simp only [DsRow.mk.injEq] at heq
      obtain ⟨hss, hbb, hvv⟩ := heq
      subst hss
      rw [hvv, ← hbb, latestPresent_next width raws s N hw hN hNabs]
  · intro row hrow
    obtain ⟨s2, hs2, i2, hi2, heq⟩ := (mem_gapFill_iff width raws row).1 hrow
    subst heq
    show firstBucket width raws s2 + width * i2 ≤ lastBucket width raws s2
    obtain ⟨p, hp, hps⟩ := List.mem_map.1 ((mem_distinctKeys _ _).1 hs2)
    have hpb : bucketOf width p.ts ∈ sensorBuckets width raws s2 :=
      (mem_sensorBuckets width raws s2 _).2 ⟨p, hp, hps, rfl⟩
    have hne := sensorBuckets_ne_nil_of_mem width raws s2 _ hpb
    have hfb_le_lb : firstBucket width raws s2 ≤ lastBucket width raws s2 :=
      le_lastBucket width raws s2 _ (firstBucket_mem width raws s2 hne)
    have hii : i2 ≤ (lastBucket width raws s2 - firstBucket width raws s2) / width := by
      omega
    have hwi : width * i2 ≤ lastBucket width raws s2 - firstBucket width raws s2 :=
      Nat.le_trans (Nat.mul_le_mul_left width hii) (Nat.mul_div_le _ width)
    calc firstBucket width raws s2 + width * i2
        ≤ firstBucket width raws s2 +
            (lastBucket width raws s2 - firstBucket width raws s2) :=
          Nat.add_le_add_left hwi _
      _ ≤ lastBucket width raws s2 := by omega

/-- Raw-data fixture for the C4 witness: sensor A has real data in the
minute buckets 36000 and 36120 and a gap at 36060. -/
def c4rows : List RawPoint := [⟨"A", 36030, 100⟩, ⟨"A", 36130, 50⟩]

/-- Witness for C4 at concrete data: the empty bucket 36060 between the two
real buckets is carried forward from bucket 36000, the no-fill variant emits
no row at 36060, and no row lies past the sensor's last bucket. -/
theorem bounded_locf_gap_policy_witness :
    (∃ v, (⟨"A", 36000, v⟩ : DsRow) ∈ downsample 60 true c4rows
       ∧ (⟨"A", 36060, v⟩ : DsRow) ∈ downsample 60 true c4rows
       ∧ v = bucketMean 60 c4rows "A" 36000
       ∧ (∀ w, (⟨"A", 36000, w⟩ : DsRow) ∈ downsample 60 true c4rows → w = v)
       ∧ (∀ w, (⟨"A", 36060, w⟩ : DsRow) ∈ downsample 60 true c4rows → w = v))
  ∧ (∀ row ∈ downsample 60 false c4rows,
       ¬(row.sensor_id = "A" ∧ row.observation_minute = 36060))
  ∧ (∀ row ∈ downsample 60 true c4rows,
       row.observation_minute ≤ lastBucket 60 c4rows row.sensor_id) := by
  have h := bounded_locf_gap_policy 60 c4rows "A" 36060 36000 (by decide)
  exact ⟨h.2.1 (by decide) (by decide) (by decide), h.1 (by decide), h.2.2⟩

/-- Raw-data fixture for C5: the four readings of the spec scenario, at
seconds-of-day 10:00:55, 10:01:15, 10:01:45 and 10:03:30. -/
def c5rows : List RawPoint :=
  [⟨"sensor-A", 36055, 999⟩, ⟨"sensor-A", 36075, 105⟩,
   ⟨"sensor-A", 36105, 115⟩, ⟨"sensor-A", 36210, 120⟩]

/-- The downsampled rows the C5 scenario expects: buckets 10:00, 10:01 and
10:03, and no bucket 10:02. -/
def c5expected : List DsRow :=
  [⟨"sensor-A", 36000, 999⟩, ⟨"sensor-A", 36060, 110⟩, ⟨"sensor-A", 36180, 120⟩]

/-- Counterexample to C5 as stated: with the claimed 15-minute bucket width
all four raw rows fall into the single bucket 10:00, so the output is one row
and cannot be the claimed three-row result. -/
theorem downsampling_scenario_15min_counterexample :
    downsample 900 false c5rows ≠ c5expected := fun h =>
  absurd (congrArg List.length h) (by decide)

/-- Claim C5 (amended): with one-minute buckets and gap-filling off, the
scenario's raw rows downsample to exactly the rows
`(A,10:00,999)`, `(A,10:01,110)`, `(A,10:03,120)` — the 10:01 value is the
arithmetic mean `(105+115)/2`, and there is no row at 10:02. -/
theorem downsampling_scenario_minute_buckets :
    downsample 60 false c5rows = c5expected := by
  simp [downsample, aggBuckets, c5rows, c5expected, distinctKeys, bucketOf]
  norm_num

end Sunlight
